import Mathlib

/-!
Shallow embedding of the `editore` terminal editor core
(`src/editor.rs`, `src/main.rs`).

Rust `usize` values (cursor coordinates, offsets, row widths, terminal
dimensions) are modelled as `Nat`; `saturating_sub` is `Nat` subtraction
(which already truncates at 0) and `saturating_add` is `+` (the saturation
point `usize::MAX` is unreachable for the quantities involved).  Strings are
ASCII in this program, so Rust's byte-indexed `truncate`/`len` coincide with
character counts; text is modelled as `List Char`.

`document.rs`, `row.rs` and `terminal.rs` are not part of the sources; the
`Row`, `Document` and terminal-size interfaces they provide are modelled from
the spec where noted.
-/

/-- `Position` from `editor.rs`: a buffer-space coordinate pair.
`#[derive(Default)]` gives `(0, 0)`. -/
@[ext]
structure Position where
  x : Nat
  y : Nat
deriving DecidableEq, Repr

/-- `Position::default()`. -/
def Position.default : Position := ⟨0, 0⟩

/-- Modelled from the spec (`row.rs` is absent from the sources): a `Row` is a
single line of text with its display projection `render_cache`; `len()` and
`render(start, end)` are defined on the render form. -/
structure Row where
  render_cache : List Char
deriving DecidableEq, Repr

/-- Modelled from the spec: `Row::len` is the number of columns of the render
form. -/
def Row.len (r : Row) : Nat := r.render_cache.length

/-- Modelled from the spec: `Row::render(start, end)` is the substring of
`render_cache` spanning columns `[start, end)`, clipped to the available
length; ranges past the end yield the empty result, silently. -/
def Row.render (r : Row) (start stop : Nat) : List Char :=
  (r.render_cache.drop start).take (stop - start)

/-- Modelled from the spec (`document.rs` is absent from the sources): the
`Document` is an ordered sequence of `Row`s plus an optional file name. -/
structure Document where
  rows : List Row
  file_name : Option String
deriving DecidableEq, Repr

/-- Modelled from the spec: `Document::default()` is the empty, unnamed
document. -/
def Document.default : Document := ⟨[], none⟩

/-- Modelled from the spec: `Document::row(index)` returns the `Row` at
`index`, or absence when `index >= rows.len()`. -/
def Document.row (d : Document) (index : Nat) : Option Row := d.rows.get? index

/-- Modelled from the spec: `Document::len()` is the row count. -/
def Document.len (d : Document) : Nat := d.rows.length

/-- Modelled from the spec: `Document::is_empty()` holds iff the row count is
zero. -/
def Document.is_empty (d : Document) : Bool := d.rows.isEmpty

/-- The terminal dimensions reported by `Terminal::size()` (`terminal.rs` is
absent from the sources; only the `width`/`height` pair is used here). -/
structure Size where
  width : Nat
  height : Nat
deriving DecidableEq, Repr

/-- The subset of `termion::event::Key` the editor inspects. -/
inductive Key where
  | Up
  | Down
  | Left
  | Right
  | PageUp
  | PageDown
  | Home
  | End
  | Ctrl (c : Char)
  | Other
deriving DecidableEq, Repr

/-- The width the editor uses at row `y`: `row.len()` when the document has a
row there, `0` otherwise (the `if let Some(row) ... else 0` in
`Editor::move_cursor`). -/
def width_at (d : Document) (y : Nat) : Nat :=
  match d.row y with
  | some r => r.len
  | none => 0

/-- `Editor::move_cursor` (editor.rs:186-228): the navigation transition on
the cursor, as a pure function of the document, the current cursor and the
pressed key. -/
def move_cursor (d : Document) (p : Position) (key : Key) : Position :=
  let y0 := p.y
  let x0 := p.x
  let width := width_at d y0
  let height := d.len
  let xy :=
    match key with
    | Key.Up => (x0, y0 - 1)
    | Key.Down => (x0, if y0 < height then y0 + 1 else y0)
    | Key.Left => (x0 - 1, y0)
    | Key.Right => ((if x0 < width then x0 + 1 else x0), y0)
    | Key.PageUp => (x0, 0)
    | Key.PageDown => (x0, height)
    | Key.Home => (0, y0)
    | Key.End => (width, y0)
    | _ => (x0, y0)
  let x1 := xy.1
  let y1 := xy.2
  let width2 := width_at d y1
  let x2 := if x1 > width2 then width2 else x1
  ⟨x2, y1⟩

/-- `Editor::scroll` (editor.rs:168-184): recompute the viewport offset from
the cursor and the terminal size. -/
def scroll (cursor off : Position) (size : Size) : Position :=
  let x := cursor.x
  let y := cursor.y
  let width := size.width
  let height := size.height
  let ox :=
    if x < off.x then x
    else if x ≥ off.x + width then x - width + 1
    else off.x
  let oy :=
    if y < off.y then y
    else if y ≥ off.y + height then y - height + 1
    else off.y
  ⟨ox, oy⟩

/-- The cursor-bounds invariant of the spec: `y ∈ [0, document.len()]` and
`x ∈ [0, width(row(y))]` (lower bounds are free over `Nat`). -/
def bounds_inv (d : Document) (p : Position) : Prop :=
  p.y ≤ d.len ∧ p.x ≤ width_at d p.y

instance (d : Document) (p : Position) : Decidable (bounds_inv d p) := by
  unfold bounds_inv; infer_instance

/-- The cursor-visibility invariant of the spec: the cursor lies within
`[offset, offset + terminal_size)` on both axes. -/
def cursor_visible (cursor off : Position) (size : Size) : Prop :=
  off.x ≤ cursor.x ∧ cursor.x < off.x + size.width ∧
  off.y ≤ cursor.y ∧ cursor.y < off.y + size.height

instance (cursor off : Position) (size : Size) :
    Decidable (cursor_visible cursor off size) := by
  unfold cursor_visible; infer_instance

/-- Modelled from the spec: the transition table of §4.3 plus the final
re-clamp of `x` to `[0, width(row(new_y))]`, written with `min` as the spec
states it.  To be compared with `move_cursor`. -/
def spec_move (d : Document) (p : Position) (key : Key) : Position :=
  let width := width_at d p.y
  let xy :=
    match key with
    | Key.Up => (p.x, p.y - 1)
    | Key.Down => (p.x, min (p.y + 1) d.len)
    | Key.Left => (p.x - 1, p.y)
    | Key.Right => (min (p.x + 1) width, p.y)
    | Key.PageUp => (p.x, 0)
    | Key.PageDown => (p.x, d.len)
    | Key.Home => (0, p.y)
    | Key.End => (width, p.y)
    | _ => (p.x, p.y)
  ⟨min xy.1 (width_at d xy.2), xy.2⟩

/-- Modelled from the spec: the viewport recomputation rule of §4.4, written
as the spec states it.  To be compared with `scroll`. -/
def spec_recompute (cursor off : Position) (size : Size) : Position :=
  let ox :=
    if cursor.x < off.x then cursor.x
    else if cursor.x ≥ off.x + size.width then cursor.x - size.width + 1
    else off.x
  let oy :=
    if cursor.y < off.y then cursor.y
    else if cursor.y ≥ off.y + size.height then cursor.y - size.height + 1
    else off.y
  ⟨ox, oy⟩

/-- One line emitted by the render driver: a rendered document row handed to
the highlighting collaborator, the welcome banner, or the `~` placeholder. -/
inductive ScreenLine where
  | content (s : List Char)
  | welcome (s : List Char)
  | tilde
deriving DecidableEq, Repr

/-- `Editor::draw_welcome_message` (editor.rs:230-242): the banner text for a
given terminal width, with `version` standing for `CARGO_PKG_VERSION`. -/
def draw_welcome_message (version : List Char) (width : Nat) : List Char :=
  let welcome_message := "Hector editor -- version ".data ++ version ++ ['\r']
  let len := welcome_message.length
  let padding := (width - len) / 2
  let spaces := List.replicate (padding - 1) ' '
  (['~'] ++ spaces ++ welcome_message).take width

/-- `Editor::draw_rows` (editor.rs:255-268): the lines emitted for screen rows
`0, ..., height - 1`.  `draw_row` passes `row.render(offset.x, offset.x +
width)` to the highlighter, modelled as `ScreenLine.content`. -/
def draw_rows (d : Document) (off : Position) (size : Size)
    (version : List Char) : List ScreenLine :=
  (List.range size.height).map fun terminal_row =>
    match d.row (terminal_row + off.y) with
    | some row => ScreenLine.content (row.render off.x (off.x + size.width))
    | none =>
      if d.is_empty && terminal_row == size.height / 3 then
        ScreenLine.welcome (draw_welcome_message version size.width)
      else
        ScreenLine.tilde

/-- The editor state (`struct Editor`), restricted to the fields the engine
logic reads: the quit flag, cursor, document, offset, status text and the
terminal size (the syntax-highlighting state is an external collaborator). -/
structure Editor where
  should_quit : Bool
  cursor_position : Position
  document : Document
  offset : Position
  status_message : String
  termsize : Size
deriving DecidableEq, Repr

/-- Modelled from the spec (`document.rs` is absent): `Document::open(path)`
reads the file at `path` and splits it into rows; the file system is a map
from paths to line lists, `none` meaning the path cannot be read, which is the
`DocumentLoad` failure. -/
def document_open (fs : String → Option (List (List Char)))
    (file_name : String) : Option Document :=
  match fs file_name with
  | some ls => some ⟨ls.map Row.mk, some file_name⟩
  | none => none

/-- `Editor::default` (editor.rs:270-296): construct the initial editor state
from the command-line arguments, over the abstract file system `fs` and the
terminal size reported at startup. -/
def editor_default (fs : String → Option (List (List Char)))
    (args : List String) (size : Size) : Editor :=
  let initial_status := "HELP: Ctrl-Q = quit"
  let ds :=
    match args with
    | _ :: file_name :: _ =>
      match document_open fs file_name with
      | some doc => (doc, initial_status)
      | none => (Document.default, "ERR: Could not open file: " ++ file_name)
    | _ => (Document.default, initial_status)
  { should_quit := false
    cursor_position := ⟨0, 0⟩
    document := ds.1
    offset := Position.default
    status_message := ds.2
    termsize := size }

/-- A terminal output operation, as issued by `Editor::refresh_screen` and its
helpers through the `Terminal` collaborator. -/
inductive TermOp where
  | cursor_hide
  | cursor_move (p : Position)
  | clear_screen
  | clear_line
  | print (s : List Char)
  | draw (l : ScreenLine)
  | status_bar (s : List Char)
  | cursor_show
  | flush
deriving DecidableEq, Repr

/-- `Editor::draw_status_bar` (editor.rs:107-134): the status-bar text. -/
def draw_status_bar (e : Editor) : List Char :=
  let width := e.termsize.width
  let file_name :=
    match e.document.file_name with
    | some name => name.data.take 20
    | none => "[No Name]".data
  let status := file_name ++ " - ".data ++ (Nat.repr e.document.len).data
    ++ " lines".data
  let line_indicator := (Nat.repr (e.cursor_position.y + 1)).data ++ ['/']
    ++ (Nat.repr e.document.len).data ++ [' ']
  let len := status.length + line_indicator.length
  let status2 := if width > len then status ++ List.replicate (width - len) ' '
    else status
  (status2 ++ line_indicator).take width

/-- `Editor::draw_message_bar` (editor.rs:136-144): clear the line, and print
the status message truncated to the width when it is younger than five
seconds; `recent` stands for the wall-clock test `Instant::now() - time < 5s`,
which is external real time. -/
def draw_message_bar (e : Editor) (recent : Bool) : List TermOp :=
  [TermOp.clear_line] ++
    (if recent then [TermOp.print (e.status_message.data.take e.termsize.width)]
     else [])

/-- `Editor::refresh_screen` (editor.rs:85-105): the sequence of terminal
operations of one screen refresh.  `version` is `CARGO_PKG_VERSION`; `recent`
is the message-bar wall-clock test.  The embedded I/O collaborator is
infallible, so no `Err` branch arises. -/
def refresh_screen (e : Editor) (version : List Char) (recent : Bool) :
    List TermOp :=
  [TermOp.cursor_hide, TermOp.cursor_move Position.default] ++
  (if e.should_quit then
    [TermOp.clear_screen, TermOp.print "Goodbye.\r".data]
  else
    ((draw_rows e.document e.offset e.termsize version).flatMap fun l =>
      [TermOp.clear_line, TermOp.draw l]) ++
    [TermOp.status_bar (draw_status_bar e)] ++
    draw_message_bar e recent ++
    [TermOp.cursor_move ⟨e.cursor_position.x - e.offset.x,
                         e.cursor_position.y - e.offset.y⟩]) ++
  [TermOp.cursor_show, TermOp.flush]

/-- `Editor::process_keypress` (editor.rs:146-166): dispatch one key (Ctrl-Q
sets the quit flag; Ctrl-T only retargets the external highlighter; navigation
keys move the cursor; anything else is a no-op), then `scroll`. -/
def process_keypress (e : Editor) (k : Key) : Editor :=
  let e1 :=
    match k with
    | Key.Ctrl c =>
      if c = 'q' then { e with should_quit := true } else e
    | Key.Up | Key.Down | Key.Left | Key.Right
    | Key.PageUp | Key.PageDown | Key.Home | Key.End =>
      { e with cursor_position := move_cursor e.document e.cursor_position k }
    | _ => e
  { e1 with offset := scroll e1.cursor_position e1.offset e1.termsize }

/-- `Editor::run` (editor.rs:71-83): the editor loop over a finite input
stream, returning the emitted terminal operations and the final state.  Each
iteration refreshes the screen, stops if the quit flag is set, and otherwise
consumes exactly one key; an exhausted stream models blocking forever on
`read_key`, so the loop also stops there. -/
def run (e : Editor) (keys : List Key) (version : List Char) (recent : Bool) :
    List TermOp × Editor :=
  let out := refresh_screen e version recent
  if e.should_quit then (out, e)
  else
    match keys with
    | [] => (out, e)
    | k :: rest =>
      let e1 := process_keypress e k
      let r := run e1 rest version recent
      (out ++ r.1, r.2)

/-- The row-width lookup of `Editor::move_cursor` re-embedded in an error
monad: `document.row(y)` returns an `Option` and the code handles absence with
an explicit `else 0` fallback, so no error is ever produced here. -/
def widthE (d : Document) (y : Nat) : Except String Nat :=
  match d.row y with
  | some r => Except.ok r.len
  | none => Except.ok 0

/-- `Editor::move_cursor` re-embedded in an error monad that would surface any
panicking operation as `Except.error`: every operation the function performs
is total (`saturating_sub`/`saturating_add` arithmetic, `Option`-returning row
lookup with an explicit fallback, no unchecked indexing), so no error point
occurs in the body. -/
def move_cursorE (d : Document) (p : Position) (key : Key) :
    Except String Position := do
  let y0 := p.y
  let x0 := p.x
  let width ← widthE d y0
  let height := d.len
  let xy :=
    match key with
    | Key.Up => (x0, y0 - 1)
    | Key.Down => (x0, if y0 < height then y0 + 1 else y0)
    | Key.Left => (x0 - 1, y0)
    | Key.Right => ((if x0 < width then x0 + 1 else x0), y0)
    | Key.PageUp => (x0, 0)
    | Key.PageDown => (x0, height)
    | Key.Home => (0, y0)
    | Key.End => (width, y0)
    | _ => (x0, y0)
  let width2 ← widthE d xy.2
  let x2 := if xy.1 > width2 then width2 else xy.1
  return ⟨x2, xy.2⟩

/-- `Editor::scroll` re-embedded in the same error monad: it performs only
saturating arithmetic and comparisons, so no error point occurs. -/
def scrollE (cursor off : Position) (size : Size) :
    Except String Position := do
  let ox :=
    if cursor.x < off.x then cursor.x
    else if cursor.x ≥ off.x + size.width then cursor.x - size.width + 1
    else off.x
  let oy :=
    if cursor.y < off.y then cursor.y
    else if cursor.y ≥ off.y + size.height then cursor.y - size.height + 1
    else off.y
  return ⟨ox, oy⟩

/-- The document of the spec scenario: three rows of lengths 5, 0 and 10. -/
def rows_5_0_10 : Document :=
  ⟨[⟨List.replicate 5 'a'⟩, ⟨[]⟩, ⟨List.replicate 10 'b'⟩], none⟩

/-- `scroll` restores visibility whenever both terminal dimensions are
positive (helper shared by the viewport results). -/
theorem scroll_restores_visibility (cursor off : Position) (size : Size)
    (hw : 1 ≤ size.width) (hh : 1 ≤ size.height) :
    cursor_visible cursor (scroll cursor off size) size := by
  simp only [scroll, cursor_visible]
  split_ifs <;> omega

/-- `scroll` leaves the offset unchanged when the cursor is already visible
(helper shared by the viewport results). -/
theorem scroll_fixed_of_visible (cursor off : Position) (size : Size)
    (h : cursor_visible cursor off size) : scroll cursor off size = off := by
  obtain ⟨h1, h2, h3, h4⟩ := h
  simp only [scroll]
  ext <;> (simp only []; try (split_ifs <;> omega))

/-- C1: for every document and every starting cursor satisfying the bounds
invariant (`y ≤ document.len()` and `x ≤ width(row(y))`, the width of a
nonexistent row being 0), the cursor produced by `move_cursor` — for the
navigation keys in particular, and in fact for every key — again satisfies
`x ≤ width(row(y))` and `y ≤ document.len()`: no transition violates the
bounds. -/
theorem move_cursor_preserves_bounds (d : Document) (p : Position) (k : Key)
    (h : bounds_inv d p) : bounds_inv d (move_cursor d p k) := by
  obtain ⟨hy, hx⟩ := h
  cases k <;>
    simp only [move_cursor, bounds_inv] <;>
    constructor <;>
    (try split_ifs) <;> omega

/-- Witness for `move_cursor_preserves_bounds` at a concrete input. -/
theorem move_cursor_preserves_bounds_witness :
    bounds_inv rows_5_0_10 ⟨5, 0⟩ ∧
    bounds_inv rows_5_0_10 (move_cursor rows_5_0_10 ⟨5, 0⟩ Key.Down) :=
  ⟨by decide, move_cursor_preserves_bounds rows_5_0_10 ⟨5, 0⟩ Key.Down (by decide)⟩

/-- C2: on every cursor satisfying the bounds invariant, `move_cursor`
implements exactly the spec's transition table with the final re-clamp of `x`
to `[0, width(row(new_y))]` applied on every transition (`spec_move`); and in
the scenario with rows of lengths `[5, 0, 10]`, from cursor `(5, 0)` two
`Down` presses land on `(0, 2)`, from which ten `Right` presses advance `x` to
`10`. -/
theorem move_cursor_matches_spec_table :
    (∀ (d : Document) (p : Position) (k : Key), bounds_inv d p →
      move_cursor d p k = spec_move d p k) ∧
    move_cursor rows_5_0_10 (move_cursor rows_5_0_10 ⟨5, 0⟩ Key.Down)
      Key.Down = ⟨0, 2⟩ ∧
    (fun q => move_cursor rows_5_0_10 q Key.Right)^[10] ⟨0, 2⟩ = ⟨10, 2⟩ := by
  refine ⟨?_, by decide, by decide⟩
  rintro d p k ⟨hy, hx⟩
  cases k <;> simp only [move_cursor, spec_move]
  case Down =>
    have h1 : (if p.y < d.len then p.y + 1 else p.y) = min (p.y + 1) d.len := by
      split_ifs <;> omega
    rw [h1]
    ext <;> (simp only []; try (split_ifs <;> omega))
  case Right =>
    have h1 : (if p.x < width_at d p.y then p.x + 1 else p.x) =
        min (p.x + 1) (width_at d p.y) := by split_ifs <;> omega
    rw [h1]
    ext <;> (simp only []; try (split_ifs <;> omega))
  all_goals ext <;> (simp only []; try (split_ifs <;> omega))

/-- Witness for `move_cursor_matches_spec_table` at a concrete input. -/
theorem move_cursor_matches_spec_table_witness :
    move_cursor rows_5_0_10 ⟨5, 0⟩ Key.Down =
      spec_move rows_5_0_10 ⟨5, 0⟩ Key.Down :=
  move_cursor_matches_spec_table.1 rows_5_0_10 ⟨5, 0⟩ Key.Down (by decide)

/-- C3 counterexample: with a terminal of width 0, one `scroll` from cursor
`(0, 0)` and offset `(0, 0)` moves the offset to `x = 1`, leaving the cursor
outside `[offset.x, offset.x + width)` — the claim fails as universally
stated over every terminal size. -/
theorem scroll_visibility_cex :
    ¬ cursor_visible ⟨0, 0⟩ (scroll ⟨0, 0⟩ ⟨0, 0⟩ ⟨0, 24⟩) ⟨0, 24⟩ := by
  decide

/-- C3 (amended): for every cursor position, starting offset, and terminal
size with positive width and height, after one `scroll` the cursor lies within
`[offset, offset + terminal_size)` on both axes. -/
theorem scroll_establishes_visibility (cursor off : Position) (size : Size)
    (hw : 1 ≤ size.width) (hh : 1 ≤ size.height) :
    cursor_visible cursor (scroll cursor off size) size :=
  scroll_restores_visibility cursor off size hw hh

/-- Witness for `scroll_establishes_visibility` at a concrete input. -/
theorem scroll_establishes_visibility_witness :
    cursor_visible ⟨85, 3⟩ (scroll ⟨85, 3⟩ ⟨0, 0⟩ ⟨80, 24⟩) ⟨80, 24⟩ :=
  scroll_establishes_visibility ⟨85, 3⟩ ⟨0, 0⟩ ⟨80, 24⟩ (by decide) (by decide)

/-- C4: `scroll` computes the new offset exactly by the spec's per-axis rule
(`spec_recompute`); it never over-scrolls, in that an offset already
satisfying the visibility invariant is left unchanged; and with terminal width
80 and cursor `x = 85` from offset 0 the new offset `x` is 6. -/
theorem scroll_matches_spec_rule :
    (∀ (cursor off : Position) (size : Size),
      scroll cursor off size = spec_recompute cursor off size) ∧
    (∀ (cursor off : Position) (size : Size),
      cursor_visible cursor off size → scroll cursor off size = off) ∧
    (scroll ⟨85, 0⟩ ⟨0, 0⟩ ⟨80, 24⟩).x = 6 := by
  refine ⟨fun cursor off size => rfl, ?_, by decide⟩
  exact fun cursor off size h => scroll_fixed_of_visible cursor off size h

/-- Witness for `scroll_matches_spec_rule` at a concrete input. -/
theorem scroll_matches_spec_rule_witness :
    scroll ⟨4, 7⟩ ⟨2, 3⟩ ⟨80, 24⟩ = ⟨2, 3⟩ :=
  scroll_matches_spec_rule.2.1 ⟨4, 7⟩ ⟨2, 3⟩ ⟨80, 24⟩ (by decide)

/-- C5 counterexample: with a terminal of width 0, `scroll` is not idempotent:
from cursor `(0, 0)` and offset `(0, 0)` the first run yields offset `(1, 0)`
and the second run yields `(0, 0)` again — the claim fails as universally
stated over every terminal size. -/
theorem scroll_idempotent_cex :
    scroll ⟨0, 0⟩ (scroll ⟨0, 0⟩ ⟨0, 0⟩ ⟨0, 24⟩) ⟨0, 24⟩ ≠
      scroll ⟨0, 0⟩ ⟨0, 0⟩ ⟨0, 24⟩ := by
  decide

/-- C5 (amended): for every cursor, offset, and terminal size with positive
width and height, running `scroll` a second time with the cursor unchanged
yields the same offset as after the first run. -/
theorem scroll_idempotent (cursor off : Position) (size : Size)
    (hw : 1 ≤ size.width) (hh : 1 ≤ size.height) :
    scroll cursor (scroll cursor off size) size = scroll cursor off size :=
  scroll_fixed_of_visible cursor (scroll cursor off size) size
    (scroll_restores_visibility cursor off size hw hh)

/-- Witness for `scroll_idempotent` at a concrete input. -/
theorem scroll_idempotent_witness :
    scroll ⟨85, 3⟩ (scroll ⟨85, 3⟩ ⟨5, 7⟩ ⟨80, 24⟩) ⟨80, 24⟩ =
      scroll ⟨85, 3⟩ ⟨5, 7⟩ ⟨80, 24⟩ :=
  scroll_idempotent ⟨85, 3⟩ ⟨5, 7⟩ ⟨80, 24⟩ (by decide) (by decide)

/-- C6: for each screen row `r` below the terminal height, the render driver
emits the rendered slice `row.render(offset.x, offset.x + width)` of the
document row at `offset.y + r` when one exists, else the welcome banner when
the document is empty and `r = height / 3`, else a `~` placeholder; and on an
empty document with an 80×24 terminal the banner appears exactly on screen row
8, every other row showing `~`. -/
theorem draw_rows_spec :
    (∀ (d : Document) (off : Position) (size : Size) (version : List Char)
      (r : Nat), r < size.height →
      (draw_rows d off size version)[r]? = some
        (match d.row (r + off.y) with
         | some row =>
           ScreenLine.content (row.render off.x (off.x + size.width))
         | none =>
           if d.is_empty && r == size.height / 3 then
             ScreenLine.welcome (draw_welcome_message version size.width)
           else ScreenLine.tilde)) ∧
    (∀ version : List Char,
      (draw_rows Document.default ⟨0, 0⟩ ⟨80, 24⟩ version)[8]? =
        some (ScreenLine.welcome (draw_welcome_message version 80))) ∧
    (∀ (version : List Char) (r : Nat), r < 24 → r ≠ 8 →
      (draw_rows Document.default ⟨0, 0⟩ ⟨80, 24⟩ version)[r]? =
        some ScreenLine.tilde) := by
  refine ⟨?_, fun version => rfl, ?_⟩
  · intro d off size version r hr
    simp [draw_rows, List.getElem?_map, List.getElem?_range hr]
  · intro version r hr hr8
    interval_cases r <;> first | rfl | omega

/-- Witness for `draw_rows_spec` at a concrete input. -/
theorem draw_rows_spec_witness :
    (draw_rows Document.default ⟨0, 0⟩ ⟨80, 24⟩ "0.1.0".data)[0]? =
      some ScreenLine.tilde :=
  draw_rows_spec.2.2 "0.1.0".data 0 (by decide) (by decide)

/-- C7: when a file path argument is given and `Document::open` fails, editor
construction still returns a state, with the empty unnamed document and status
message exactly `"ERR: Could not open file: <path>"`; when the open succeeds,
or when no path argument is given, the status message is the help text. -/
theorem editor_default_open_failure :
    (∀ (fs : String → Option (List (List Char))) (size : Size)
      (a0 path : String) (rest : List String),
      (document_open fs path = none →
        (editor_default fs (a0 :: path :: rest) size).document =
          Document.default ∧
        (editor_default fs (a0 :: path :: rest) size).status_message =
          "ERR: Could not open file: " ++ path) ∧
      (∀ doc, document_open fs path = some doc →
        (editor_default fs (a0 :: path :: rest) size).document = doc ∧
        (editor_default fs (a0 :: path :: rest) size).status_message =
          "HELP: Ctrl-Q = quit")) ∧
    (∀ (fs : String → Option (List (List Char))) (size : Size)
      (args : List String), args.length ≤ 1 →
      (editor_default fs args size).document = Document.default ∧
      (editor_default fs args size).status_message = "HELP: Ctrl-Q = quit") := by
  constructor
  · intro fs size a0 path rest
    constructor
    · intro hnone
      simp [editor_default, hnone]
    · intro doc hsome
      simp [editor_default, hsome]
  · intro fs size args hlen
    match args with
    | [] => exact ⟨rfl, rfl⟩
    | [a0] => exact ⟨rfl, rfl⟩
    | a0 :: a1 :: rest => simp at hlen

/-- Witness for `editor_default_open_failure` at a concrete input. -/
theorem editor_default_open_failure_witness :
    (editor_default (fun _ => none) ["editore", "foo.txt"] ⟨80, 24⟩).document =
      Document.default ∧
    (editor_default (fun _ => none) ["editore", "foo.txt"] ⟨80, 24⟩).status_message =
      "ERR: Could not open file: foo.txt" :=
  (editor_default_open_failure.1 (fun _ => none) ⟨80, 24⟩ "editore" "foo.txt"
    []).1 rfl

/-- `run` stops immediately, emitting one refresh, when the quit flag is
already set (helper for the editor-loop result). -/
theorem run_of_should_quit (e : Editor) (keys : List Key) (version : List Char)
    (recent : Bool) (h : e.should_quit = true) :
    run e keys version recent = (refresh_screen e version recent, e) := by
  cases keys <;> simp [run, h]

/-- C8: from any running state (quit flag unset), a Ctrl-Q during
`process_keypress` sets the quit flag; the loop then performs exactly one more
`refresh_screen` — which clears the screen and prints the farewell message —
and terminates, returning normally without consuming any further input. -/
theorem run_quits_on_ctrl_q (e : Editor) (rest : List Key)
    (version : List Char) (recent : Bool) (h : e.should_quit = false) :
    (process_keypress e (Key.Ctrl 'q')).should_quit = true ∧
    refresh_screen (process_keypress e (Key.Ctrl 'q')) version recent =
      [TermOp.cursor_hide, TermOp.cursor_move Position.default,
       TermOp.clear_screen, TermOp.print "Goodbye.\r".data,
       TermOp.cursor_show, TermOp.flush] ∧
    run e (Key.Ctrl 'q' :: rest) version recent =
      (refresh_screen e version recent ++
        [TermOp.cursor_hide, TermOp.cursor_move Position.default,
         TermOp.clear_screen, TermOp.print "Goodbye.\r".data,
         TermOp.cursor_show, TermOp.flush],
       process_keypress e (Key.Ctrl 'q')) := by
  have hq : (process_keypress e (Key.Ctrl 'q')).should_quit = true := by
    simp [process_keypress]
  have hrefresh : refresh_screen (process_keypress e (Key.Ctrl 'q')) version
      recent = [TermOp.cursor_hide, TermOp.cursor_move Position.default,
        TermOp.clear_screen, TermOp.print "Goodbye.\r".data,
        TermOp.cursor_show, TermOp.flush] := by
    simp [refresh_screen, hq]
  refine ⟨hq, hrefresh, ?_⟩
  rw [run, if_neg (by simp [h])]
  simp only [run_of_should_quit _ rest version recent hq, hrefresh]

/-- Witness for `run_quits_on_ctrl_q` at a concrete input. -/
theorem run_quits_on_ctrl_q_witness :
    (process_keypress
      ⟨false, ⟨0, 0⟩, Document.default, ⟨0, 0⟩, "s", ⟨3, 2⟩⟩
      (Key.Ctrl 'q')).should_quit = true :=
  (run_quits_on_ctrl_q
    ⟨false, ⟨0, 0⟩, Document.default, ⟨0, 0⟩, "s", ⟨3, 2⟩⟩
    [] "v".data false rfl).1

/-- C9: the navigation and viewport logic is total — re-embedded in an error
monad in which any panicking operation would surface as `Except.error`,
`move_cursor` and `scroll` return `Except.ok` of their pure results on every
input (all arithmetic is saturating, the row lookup returns an `Option`
handled by an explicit fallback, and no unchecked indexing occurs). -/
theorem navigation_total :
    ∀ (d : Document) (p : Position) (k : Key) (cursor off : Position)
      (size : Size),
      move_cursorE d p k = Except.ok (move_cursor d p k) ∧
      scrollE cursor off size = Except.ok (scroll cursor off size) := by
  intro d p k cursor off size
  refine ⟨?_, rfl⟩
  have hw : ∀ y, widthE d y = Except.ok (width_at d y) := by
    intro y
    unfold widthE width_at
    cases d.row y <;> rfl
  simp [move_cursorE, move_cursor, hw, Bind.bind, Except.bind]
  rfl

/-- C10: a freshly constructed editor starts with cursor `(0, 0)`, offset
`(0, 0)` and the quit flag unset, so for every file system, argument list and
terminal of positive dimensions, the cursor-bounds invariant and the
cursor-visibility invariant both hold in the initial state. -/
theorem editor_default_initial_invariants
    (fs : String → Option (List (List Char))) (args : List String)
    (w h : Nat) (hw : 1 ≤ w) (hh : 1 ≤ h) :
    (editor_default fs args ⟨w, h⟩).cursor_position = ⟨0, 0⟩ ∧
    (editor_default fs args ⟨w, h⟩).offset = ⟨0, 0⟩ ∧
    (editor_default fs args ⟨w, h⟩).should_quit = false ∧
    bounds_inv (editor_default fs args ⟨w, h⟩).document
      (editor_default fs args ⟨w, h⟩).cursor_position ∧
    cursor_visible (editor_default fs args ⟨w, h⟩).cursor_position
      (editor_default fs args ⟨w, h⟩).offset ⟨w, h⟩ := by
  refine ⟨rfl, rfl, rfl, ⟨Nat.zero_le _, Nat.zero_le _⟩, ?_⟩
  show cursor_visible ⟨0, 0⟩ ⟨0, 0⟩ ⟨w, h⟩
  simp only [cursor_visible]
  omega

/-- Witness for `editor_default_initial_invariants` at a concrete input. -/
theorem editor_default_initial_invariants_witness :
    cursor_visible (editor_default (fun _ => none) [] ⟨80, 24⟩).cursor_position
      (editor_default (fun _ => none) [] ⟨80, 24⟩).offset ⟨80, 24⟩ :=
  (editor_default_initial_invariants (fun _ => none) [] 80 24
    (by decide) (by decide)).2.2.2.2
